import Mathlib

/-!
Shallow embedding of `pulseaudio_dlna/plugins/upnp/renderer.py`
(the UPnP media-renderer control point of pulseaudio-dlna).

Network I/O is modelled by an explicit outcome value per HTTP POST: either a
response carrying a status code together with the information the action later
extracts from the response body, a timeout (`requests.exceptions.Timeout`), or
a connection error (`requests.exceptions.ConnectionError`, which the low-level
actions do not catch).  Logging is modelled as an explicit list of log entries
recording severity and whether the message mentions the target control URL.
Real time inside `_update_current_state` is modelled discretely: the loop
condition `time.time() - start_time <= self.REQUEST_TIMEOUT` together with the
one-second sleep per iteration gives at most `timeout + 1` polls, at elapsed
seconds `0, 1, ..., timeout`.
-/

namespace PulseaudioDlna

/-- Python `str.split(sep)` for a one-character separator on an exploded
string: splits at every occurrence, keeps empty fields, returns `[[]]` on
the empty string. -/
def splitChars (sep : Char) : List Char → List (List Char)
  | [] => [[]]
  | c :: cs =>
    match splitChars sep cs with
    | [] => if c = sep then [[], []] else [[c]]
    | field :: rest =>
      if c = sep then [] :: field :: rest
      else (c :: field) :: rest

/-- Python `str.split(sep)` for a one-character separator. -/
def pySplit (sep : Char) (s : String) : List String :=
  (splitChars sep s.toList).map (fun cs => ⟨cs⟩)

/-- Python `str.strip()`: removes leading and trailing whitespace. -/
def pyStrip (s : String) : String :=
  ⟨((s.toList.dropWhile Char.isWhitespace).reverse.dropWhile
      Char.isWhitespace).reverse⟩

/-- Python `str.zfill(width)` for non-negative content: left-pads with `'0'`
up to `width` characters; a string already at least `width` long is returned
unchanged. -/
def zfill (s : String) (width : Nat) : String :=
  if width ≤ s.length then s
  else ⟨List.replicate (width - s.length) '0' ++ s.toList⟩

/-- Python `str.startswith(pre)`. -/
def pyStartsWith (s pre : String) : Bool :=
  List.isPrefixOf pre.toList s.toList

/-! Content flags and content features (renderer.py lines 36-72). -/

namespace UpnpContentFlags

def SENDER_PACED : Nat := 80000000

def LSOP_TIME_BASED_SEEK_SUPPORTED : Nat := 40000000

def LSOP_BYTE_BASED_SEEK_SUPPORTED : Nat := 20000000

def PLAY_CONTAINER_SUPPORTED : Nat := 10000000

def S0_INCREASING_SUPPORTED : Nat := 8000000

def SN_INCREASING_SUPPORTED : Nat := 4000000

def RTSP_PAUSE_SUPPORTED : Nat := 2000000

def STREAMING_TRANSFER_MODE_SUPPORTED : Nat := 1000000

def INTERACTIVE_TRANSFER_MODE_SUPPORTED : Nat := 800000

def BACKGROUND_TRANSFER_MODE_SUPPORTED : Nat := 400000

def CONNECTION_STALLING_SUPPORTED : Nat := 200000

def DLNA_VERSION_15_SUPPORTED : Nat := 100000

/-- Embeds `UpnpContentFlags.__str__` (line 54-55):
`str(sum(self.flags)).zfill(8)`. -/
def str (flags : List Nat) : String :=
  zfill (Nat.repr flags.sum) 8

end UpnpContentFlags

structure UpnpContentFeatures where
  support_time_seek : Bool
  support_range : Bool
  is_transcoded : Bool
  flags : List Nat
deriving DecidableEq, Repr

/-- Embeds `UpnpContentFeatures.__init__` (lines 60-65).  The Python body
assigns the literal `False` to `support_time_seek`, `support_range` and
`is_transcoded`, never reading the constructor arguments of those names; only
`flags` is taken from the arguments (`flags or []`). -/
def UpnpContentFeatures.init
    (support_time_seek support_range transcoded : Bool)
    (flags : List Nat) : UpnpContentFeatures :=
  { support_time_seek := false
    support_range := false
    is_transcoded := false
    flags := flags }

/-- The `'0' * 24` suffix appended to the flags word (line 72). -/
def zeros24 : String := ⟨List.replicate 24 '0'⟩

/-- The rendered `DLNA.ORG_FLAGS` field (line 72):
`str(self.flags) + ('0' * 24)`. -/
def dlnaFlagsField (flags : List Nat) : String :=
  UpnpContentFlags.str flags ++ zeros24

/-- Embeds `UpnpContentFeatures.__str__` (lines 67-72):
`DLNA.ORG_OP={}{};DLNA.ORG_CI={};DLNA.ORG_FLAGS={}` with the three booleans
rendered as `'1'`/`'0'` and the flags word rendered by `UpnpContentFlags.str`
followed by 24 literal `'0'` characters. -/
def UpnpContentFeatures.str (cf : UpnpContentFeatures) : String :=
  "DLNA.ORG_OP=" ++ (if cf.support_time_seek then "1" else "0")
    ++ (if cf.support_range then "1" else "0")
    ++ ";DLNA.ORG_CI=" ++ (if cf.is_transcoded then "1" else "0")
    ++ ";DLNA.ORG_FLAGS=" ++ dlnaFlagsField cf.flags

/-! Service classification and device validation (lines 75-179). -/

inductive ServiceKind
  | transport
  | connection
  | rendering
deriving DecidableEq, Repr

/-- Raw service record handed to `UpnpService.__init__` (the dict built by
the factory, lines 528-534; only the fields the embedding needs). -/
structure ServiceDesc where
  service_type : String
  control_url : String
  eventsub_url : String
deriving DecidableEq, Repr

/-- Embeds the service-type classification in `UpnpService.__init__`
(lines 86-96): prefix match against the three known service-type URN
prefixes; anything else gets type `None`. -/
def UpnpService.kindOf (service_type : String) : Option ServiceKind :=
  if pyStartsWith service_type "urn:schemas-upnp-org:service:AVTransport:" then
    some ServiceKind.transport
  else if pyStartsWith service_type
      "urn:schemas-upnp-org:service:ConnectionManager:" then
    some ServiceKind.connection
  else if pyStartsWith service_type
      "urn:schemas-upnp-org:service:RenderingControl:" then
    some ServiceKind.rendering
  else
    none

/-- The three service slots of `UpnpMediaRenderer` (lines 144-146). -/
structure ResolvedServices where
  service_transport : Option ServiceDesc
  service_connection : Option ServiceDesc
  service_rendering : Option ServiceDesc
deriving DecidableEq, Repr

/-- Slot lookup by kind. -/
def ResolvedServices.get (r : ResolvedServices) :
    ServiceKind → Option ServiceDesc
  | ServiceKind.transport => r.service_transport
  | ServiceKind.connection => r.service_connection
  | ServiceKind.rendering => r.service_rendering

/-- One iteration of the service loop in `UpnpMediaRenderer.__init__`
(lines 148-155): classify the service and, when it has one of the three
known kinds, overwrite that slot. -/
def resolveStep (acc : ResolvedServices) (s : ServiceDesc) : ResolvedServices :=
  match UpnpService.kindOf s.service_type with
  | some ServiceKind.transport => { acc with service_transport := some s }
  | some ServiceKind.connection => { acc with service_connection := some s }
  | some ServiceKind.rendering => { acc with service_rendering := some s }
  | none => acc

/-- Embeds the service resolution of `UpnpMediaRenderer.__init__`
(lines 144-155): slots start at `None` and each listed service is folded in
by `resolveStep`. -/
def resolveServices (services : List ServiceDesc) : ResolvedServices :=
  services.foldl resolveStep ⟨none, none, none⟩

/-- Embeds `UpnpMediaRenderer.validate` (lines 163-179): checks transport,
then connection, then rendering; on the first missing slot it logs which
service url the device does not specify and returns `False`; returns `True`
when all three are present.  The second component is the service kind named
in the rejection log (`none` when validation succeeds and nothing is
logged). -/
def validate (r : ResolvedServices) : Bool × Option ServiceKind :=
  match r.service_transport with
  | none => (false, some ServiceKind.transport)
  | some _ =>
    match r.service_connection with
    | none => (false, some ServiceKind.connection)
    | some _ =>
      match r.service_rendering with
      | none => (false, some ServiceKind.rendering)
      | some _ => (true, none)

/-! Network outcomes, exceptions and logging. -/

/-- Exceptions that escape the low-level action methods or are raised before
them: `requests.exceptions.ConnectionError` (not caught by the low-level
actions) and `NoSuitableEncoderFoundException` (raised by the external
stream-URL/encoder collaborator). -/
inductive Exn
  | connectionError
  | noSuitableEncoder
deriving DecidableEq, Repr

/-- Outcome of one `requests.post` call: a response with its HTTP status code
and the body information the action later extracts, a timeout, or a
connection error. -/
inductive NetOutcome (β : Type)
  | resp (status : Nat) (body : β)
  | timeout
  | connError
deriving DecidableEq, Repr

inductive LogLevel
  | error
  | warning
  | info
  | debug
deriving DecidableEq, Repr

/-- A log entry: severity, and whether the message mentions the target
control URL. -/
structure LogEntry where
  level : LogLevel
  mentions_url : Bool
deriving DecidableEq, Repr

/-- Number of error-level log entries mentioning the target control URL. -/
def errorUrlCount (logs : List LogEntry) : Nat :=
  (logs.filter (fun e => e.level == LogLevel.error && e.mentions_url)).length

/-- The `_debug` entry written in every `finally:` block (lines 199-213);
its message includes the target URL. -/
def debugEntry : LogEntry := ⟨LogLevel.debug, true⟩

/-- A `logger.error` entry whose message includes the target URL (the
timeout and invalid-XML messages of the action methods). -/
def errorUrlEntry : LogEntry := ⟨LogLevel.error, true⟩

/-! The six SOAP actions (lines 229-448). -/

/-- Embeds `UpnpMediaRenderer.register` (lines 229-279).  The response body
is never parsed, so its outcome type is `Unit`: any response returns its raw
status code; a timeout logs one error naming the URL and returns 408; a
connection error propagates; the `finally:` debug entry is always written. -/
def register (outcome : NetOutcome Unit) : Except Exn Nat × List LogEntry :=
  match outcome with
  | NetOutcome.resp status _ => (Except.ok status, [debugEntry])
  | NetOutcome.timeout => (Except.ok 408, [errorUrlEntry, debugEntry])
  | NetOutcome.connError => (Except.error Exn.connectionError, [debugEntry])

/-- Body information of a GetTransportInfo response: `malformed` when
`lxml.etree.fromstring` fails or the `CurrentTransportState` element is
absent (so that `.text` raises and the bare `except:` fires); otherwise the
element's text, which is `None` for an empty element. -/
inductive TIBody
  | malformed
  | stateText (t : Option String)
deriving DecidableEq, Repr

/-- Embeds `UpnpMediaRenderer.get_transport_info` (lines 281-313).  On a 200
response it returns the `CurrentTransportState` text, or `None` with an
error log on a parse failure; on any other status it falls through the
`if` and implicitly returns `None`; on timeout it logs one error naming the
URL and returns `None`; a connection error propagates. -/
def get_transport_info (outcome : NetOutcome TIBody) :
    Except Exn (Option String) × List LogEntry :=
  match outcome with
  | NetOutcome.resp status body =>
    if status = 200 then
      match body with
      | TIBody.malformed => (Except.ok none, [errorUrlEntry, debugEntry])
      | TIBody.stateText t => (Except.ok t, [debugEntry])
    else
      (Except.ok none, [debugEntry])
  | NetOutcome.timeout => (Except.ok none, [errorUrlEntry, debugEntry])
  | NetOutcome.connError =>
    (Except.error Exn.connectionError, [debugEntry])

/-- Modelled from the spec: `BaseRenderer.add_mime_type` is not under `src/`;
per the spec the extracted mime type is "added to the Device's
supported-mime-type set (duplicates suppressed)". -/
def add_mime_type (mimes : List String) (m : String) : List String :=
  if m ∈ mimes then mimes else mimes ++ [m]

/-- The per-entry step of the Sink loop in `get_protocol_info`
(lines 340-343): strip the entry, split on `':'`, and when there are at
least 4 fields yield the field at index 2. -/
def sinkEntryMime (entry : String) : Option String :=
  let attributes := pySplit ':' (pyStrip entry)
  if 4 ≤ attributes.length then some (attributes.getD 2 "") else none

/-- The Sink loop of `get_protocol_info` (lines 340-343): split the Sink
string on `','` and add each qualifying entry's mime type. -/
def parseSinkMimes (sinks : String) (mimes : List String) : List String :=
  (pySplit ',' sinks).foldl
    (fun acc sink =>
      match sinkEntryMime sink with
      | some m => add_mime_type acc m
      | none => acc)
    mimes

/-- Body information of a GetProtocolInfo response: `some s` when the XML
parses and the `Sink` element is present with text `s`; `none` when parsing
fails, the element is missing, or its text is `None` (every one of which
makes the bare `except:` fire, the last via `None.split`). -/
abbrev GPIBody := Option String

/-- Embeds `UpnpMediaRenderer.get_protocol_info` (lines 315-357).  On a 200
response with a usable Sink string it rebuilds the mime-type set and returns
the status (200); on a 200 response whose body is unusable it logs an error
naming the URL and returns 400; on any other status it falls through the
`if` and implicitly returns `None`; on timeout it logs one error naming the
URL and returns 408; a connection error propagates.  Components: result,
mime-type list, log entries. -/
def get_protocol_info (mimes : List String) (outcome : NetOutcome GPIBody) :
    Except Exn (Option Nat) × List String × List LogEntry :=
  match outcome with
  | NetOutcome.resp status body =>
    if status = 200 then
      match body with
      | some sinks =>
        (Except.ok (some status), parseSinkMimes sinks mimes, [debugEntry])
      | none =>
        (Except.ok (some 400), mimes, [errorUrlEntry, debugEntry])
    else
      (Except.ok none, mimes, [debugEntry])
  | NetOutcome.timeout =>
    (Except.ok (some 408), mimes, [errorUrlEntry, debugEntry])
  | NetOutcome.connError =>
    (Except.error Exn.connectionError, mimes, [debugEntry])

/-- Local transport states of the renderer (`BaseRenderer` constants; the
spec's `Idle`, `Playing`, `Stopped`, `Paused`). -/
inductive TransportState
  | IDLE
  | PLAYING
  | STOP
  | PAUSE
deriving DecidableEq, Repr

/-- Embeds `UpnpMediaRenderer.play` (lines 359-388): on a 200 response the
local state becomes `PLAYING` and the status is returned; on any other
response the status is returned with the state unchanged; on timeout one
error naming the URL is logged and 408 is returned with the state
unchanged; a connection error propagates.  Components: new state, result,
log entries. -/
def play (st : TransportState) (outcome : NetOutcome Unit) :
    TransportState × Except Exn Nat × List LogEntry :=
  match outcome with
  | NetOutcome.resp status _ =>
    if status = 200 then
      (TransportState.PLAYING, Except.ok status, [debugEntry])
    else
      (st, Except.ok status, [debugEntry])
  | NetOutcome.timeout =>
    (st, Except.ok 408, [errorUrlEntry, debugEntry])
  | NetOutcome.connError =>
    (st, Except.error Exn.connectionError, [debugEntry])

/-- Embeds `UpnpMediaRenderer.stop` (lines 390-419): like `play` but a 200
response sets the local state to `IDLE`. -/
def stop (st : TransportState) (outcome : NetOutcome Unit) :
    TransportState × Except Exn Nat × List LogEntry :=
  match outcome with
  | NetOutcome.resp status _ =>
    if status = 200 then
      (TransportState.IDLE, Except.ok status, [debugEntry])
    else
      (st, Except.ok status, [debugEntry])
  | NetOutcome.timeout =>
    (st, Except.ok 408, [errorUrlEntry, debugEntry])
  | NetOutcome.connError =>
    (st, Except.error Exn.connectionError, [debugEntry])

/-- Embeds `UpnpMediaRenderer.pause` (lines 421-448): like `play` but a 200
response sets the local state to `PAUSE`. -/
def pause (st : TransportState) (outcome : NetOutcome Unit) :
    TransportState × Except Exn Nat × List LogEntry :=
  match outcome with
  | NetOutcome.resp status _ =>
    if status = 200 then
      (TransportState.PAUSE, Except.ok status, [debugEntry])
    else
      (st, Except.ok status, [debugEntry])
  | NetOutcome.timeout =>
    (st, Except.ok 408, [errorUrlEntry, debugEntry])
  | NetOutcome.connError =>
    (st, Except.error Exn.connectionError, [debugEntry])

/-! `_update_current_state` (lines 214-227): discrete-time model.  Each
iteration polls once and then sleeps one second, and the loop guard admits
elapsed times `0, 1, ..., timeout`, so the call performs at most
`timeout + 1` polls. -/

/-- The poll loop body of `_update_current_state` over an explicit list of
remaining poll outcomes: a `None` poll result returns `False` at once; a
`"PLAYING"` / `"STOPPED"` text sets the state and returns `True`; any other
text continues; an exhausted list is the elapsed deadline, returning
`False`.  Exceptions from `get_transport_info` propagate. -/
def updateLoop (st : TransportState) :
    List (NetOutcome TIBody) → Except Exn (Bool × TransportState)
  | [] => Except.ok (false, st)
  | o :: rest =>
    match (get_transport_info o).1 with
    | Except.error e => Except.error e
    | Except.ok none => Except.ok (false, st)
    | Except.ok (some s) =>
      if s = "PLAYING" then Except.ok (true, TransportState.PLAYING)
      else if s = "STOPPED" then Except.ok (true, TransportState.STOP)
      else updateLoop st rest

/-- Embeds `UpnpMediaRenderer._update_current_state` (lines 214-227) in
discrete time: the poll performed at elapsed second `k` has outcome
`polls k`, and the deadline admits polls at `k = 0, ..., timeout`. -/
def update_current_state (timeout : Nat) (polls : Nat → NetOutcome TIBody)
    (st : TransportState) : Except Exn (Bool × TransportState) :=
  updateLoop st ((List.range (timeout + 1)).map polls)

/-! `CoinedUpnpMediaRenderer.play` (lines 455-485). -/

/-- Environment of one orchestrated-play call: the outcome of
`get_stream_url()` (which may raise `NoSuitableEncoderFoundException`; not
under `src/`, modelled from the spec as the external encoder-selection
collaborator), the outcome of the register POST, the reconciliation
deadline and poll outcomes, and the outcome of the low-level play POST. -/
structure CoinedEnv where
  get_stream : Except Exn Unit
  regOutcome : NetOutcome Unit
  timeout : Nat
  polls : Nat → NetOutcome TIBody
  playOutcome : NetOutcome Unit

/-- Status code produced by the two `except` clauses of
`CoinedUpnpMediaRenderer.play` (lines 480-485): `ConnectionError` is mapped
to 404, `NoSuitableEncoderFoundException` to 500. -/
def exnCode : Exn → Nat
  | Exn.connectionError => 404
  | Exn.noSuitableEncoder => 500

/-- Embeds `CoinedUpnpMediaRenderer.play` (lines 455-485): register the
stream; on a non-200 registration return that status; on 200 reconcile the
state, issuing the low-level play when the reconciled state is `STOP` or
when reconciliation failed, and returning 200 without playing when the
reconciled state is `PLAYING`; exceptions anywhere in the sequence are
mapped to 404 / 500.  When reconciliation returns `True` with a state other
than `STOP` or `PLAYING`, the Python falls through both branches and
returns `None`.  Components: returned value (`none` = Python `None`), final
local state, number of low-level `play` invocations. -/
def coined_play (st : TransportState) (env : CoinedEnv) :
    Option Nat × TransportState × Nat :=
  match env.get_stream with
  | Except.error e => (some (exnCode e), st, 0)
  | Except.ok _ =>
    match (register env.regOutcome).1 with
    | Except.error e => (some (exnCode e), st, 0)
    | Except.ok rc =>
      if rc = 200 then
        match update_current_state env.timeout env.polls st with
        | Except.error e => (some (exnCode e), st, 0)
        | Except.ok (true, st1) =>
          if st1 = TransportState.STOP then
            match play st1 env.playOutcome with
            | (st2, Except.ok code, _) => (some code, st2, 1)
            | (st2, Except.error e, _) => (some (exnCode e), st2, 1)
          else if st1 = TransportState.PLAYING then (some rc, st1, 0)
          else (none, st1, 0)
        | Except.ok (false, st1) =>
          match play st1 env.playOutcome with
          | (st2, Except.ok code, _) => (some code, st2, 1)
          | (st2, Except.error e, _) => (some (exnCode e), st2, 1)
      else (some rc, st, 0)

/-! Concrete inputs used by witnesses, and spec-level predicates. -/

/-- A poll outcome whose transport-state text is present but neither
`"PLAYING"` nor `"STOPPED"` (the loop continues past it). -/
def unrecognizedPoll (o : NetOutcome TIBody) : Prop :=
  ∃ s, (get_transport_info o).1 = Except.ok (some s) ∧
    s ≠ "PLAYING" ∧ s ≠ "STOPPED"

/-- A service list containing one service of each required kind. -/
def threeServices : List ServiceDesc :=
  [⟨"urn:schemas-upnp-org:service:AVTransport:1", "/t", "/te"⟩,
   ⟨"urn:schemas-upnp-org:service:ConnectionManager:1", "/c", "/ce"⟩,
   ⟨"urn:schemas-upnp-org:service:RenderingControl:1", "/r", "/re"⟩]

/-- Polls: one `"TRANSITIONING"` answer, then `"PLAYING"` answers. -/
def pollsDemo : Nat → NetOutcome TIBody :=
  fun k =>
    if k = 0 then NetOutcome.resp 200 (TIBody.stateText (some "TRANSITIONING"))
    else NetOutcome.resp 200 (TIBody.stateText (some "PLAYING"))

/-- Orchestrated-play environment: registration succeeds and the device then
reports `"STOPPED"`. -/
def envStopped : CoinedEnv :=
  { get_stream := Except.ok ()
    regOutcome := NetOutcome.resp 200 ()
    timeout := 0
    polls := fun _ => NetOutcome.resp 200 (TIBody.stateText (some "STOPPED"))
    playOutcome := NetOutcome.resp 200 () }

/-- Orchestrated-play environment: the register POST is refused. -/
def envConnRefused : CoinedEnv :=
  { get_stream := Except.ok ()
    regOutcome := NetOutcome.connError
    timeout := 0
    polls := fun _ => NetOutcome.timeout
    playOutcome := NetOutcome.timeout }

/-- Orchestrated-play environment: no suitable encoder is found while
building the stream URL. -/
def envNoEncoder : CoinedEnv :=
  { get_stream := Except.error Exn.noSuitableEncoder
    regOutcome := NetOutcome.connError
    timeout := 0
    polls := fun _ => NetOutcome.timeout
    playOutcome := NetOutcome.timeout }

/-- Orchestrated-play environment: registration succeeds, the first
reconciliation poll answers `"TRANSITIONING"`, and the second poll's POST is
refused. -/
def envPollConnRefused : CoinedEnv :=
  { get_stream := Except.ok ()
    regOutcome := NetOutcome.resp 200 ()
    timeout := 1
    polls := fun k =>
      if k = 0 then NetOutcome.resp 200 (TIBody.stateText (some "TRANSITIONING"))
      else NetOutcome.connError
    playOutcome := NetOutcome.resp 200 () }

/-- Orchestrated-play environment: registration succeeds, the device reports
`"STOPPED"`, and the low-level play POST is then refused. -/
def envPlayConnRefused : CoinedEnv :=
  { get_stream := Except.ok ()
    regOutcome := NetOutcome.resp 200 ()
    timeout := 0
    polls := fun _ => NetOutcome.resp 200 (TIBody.stateText (some "STOPPED"))
    playOutcome := NetOutcome.connError }

/-! Helper lemmas. -/

theorem zfill_length (s : String) (w : Nat) :
    (zfill s w).length = max w s.length := by
  unfold zfill
  split
  · omega
  · have h : (⟨List.replicate (w - s.length) '0' ++ s.toList⟩ : String).length
        = (List.replicate (w - s.length) '0' ++ s.toList).length := rfl
    have h2 : s.toList.length = s.length := rfl
    rw [h, List.length_append, List.length_replicate, h2]
    omega

/-! C2. -/

/-- C2: the claim states that the serialized string encodes the three boolean
constructor arguments as `'1'`/`'0'` characters.  The constructor discards
its arguments (lines 62-64 assign the literal `False`), so constructing with
all three arguments `true` still serializes `DLNA.ORG_OP=00` and
`DLNA.ORG_CI=0` — not the `11` / `1` the claim requires.  The flags field is
the 8-digit rendering of the empty sum followed by 24 zeros. -/
theorem C2_code_bug :
    (UpnpContentFeatures.init true true true []).str =
      "DLNA.ORG_OP=00;DLNA.ORG_CI=0;DLNA.ORG_FLAGS=" ++
        "00000000000000000000000000000000" ∧
    (UpnpContentFeatures.init true true true []).support_time_seek = false ∧
    (UpnpContentFeatures.init true true true []).support_range = false ∧
    (UpnpContentFeatures.init true true true []).is_transcoded = false := by
  refine ⟨by decide, rfl, rfl, rfl⟩

/-! C8. -/

/-- C8 (counterexample): for the flag list
`[SENDER_PACED, LSOP_TIME_BASED_SEEK_SUPPORTED]` the sum is `120000000`,
whose decimal rendering has 9 digits, so the rendered field is 33 characters
long — it is not an exactly-8-digit field followed by 24 zeros (which would
have 32 characters). -/
theorem C8_counterexample :
    dlnaFlagsField [UpnpContentFlags.SENDER_PACED,
        UpnpContentFlags.LSOP_TIME_BASED_SEEK_SUPPORTED] =
      "120000000" ++ zeros24 ∧
    (dlnaFlagsField [UpnpContentFlags.SENDER_PACED,
        UpnpContentFlags.LSOP_TIME_BASED_SEEK_SUPPORTED]).length = 33 := by
  constructor
  · decide
  · decide

/-- C8 (amended): the rendered `DLNA.ORG_FLAGS` field is the decimal sum of
the selected flag constants zero-padded to a minimum width of 8 digits
(exactly 8 whenever the sum has at most 8 digits), followed by exactly 24
literal `'0'` characters; for
`{STREAMING_TRANSFER_MODE_SUPPORTED, DLNA_VERSION_15_SUPPORTED}` the field
is `"01100000"` followed by 24 zeros. -/
theorem C8_amended (flags : List Nat) :
    dlnaFlagsField flags = zfill (Nat.repr flags.sum) 8 ++ zeros24 ∧
    (UpnpContentFlags.str flags).length = max 8 (Nat.repr flags.sum).length ∧
    zeros24.length = 24 ∧
    dlnaFlagsField [UpnpContentFlags.STREAMING_TRANSFER_MODE_SUPPORTED,
        UpnpContentFlags.DLNA_VERSION_15_SUPPORTED] =
      "01100000" ++ zeros24 := by
  refine ⟨rfl, ?_, by decide, by decide⟩
  exact zfill_length (Nat.repr flags.sum) 8

/-! C1. -/

/-- C1 (counterexample): a GetProtocolInfo response with status 500 makes
`get_protocol_info` fall through the `if response.status_code == 200` block
and return Python `None` — not the raw status code 500 the claim states. -/
theorem C1_counterexample :
    (get_protocol_info [] (NetOutcome.resp 500 none)).1 = Except.ok none := by
  rfl

/-- C1 (amended): on a non-200 response `get_protocol_info` returns `None`
(no status code at all); on a 200 response whose body cannot be parsed or
lacks the Sink element it returns 400; on a network timeout it returns
408. -/
theorem C1_amended (status : Nat) (body : GPIBody) (mimes : List String)
    (h : status ≠ 200) :
    (get_protocol_info mimes (NetOutcome.resp status body)).1 =
      Except.ok none ∧
    (get_protocol_info mimes (NetOutcome.resp 200 none)).1 =
      Except.ok (some 400) ∧
    (get_protocol_info mimes NetOutcome.timeout).1 = Except.ok (some 408) := by
  refine ⟨?_, rfl, rfl⟩
  simp [get_protocol_info, h]

/-- C1 witness: the amended statement at status 500. -/
theorem C1_witness :
    (get_protocol_info [] (NetOutcome.resp 500 (none : GPIBody))).1 =
      Except.ok none :=
  (C1_amended 500 none [] (by decide)).1

/-! C10. -/

/-- C10: a GetTransportInfo response with a non-200 status makes
`get_transport_info` return `None` — the same sentinel it returns on a
timeout and on a 200 response with unparsable XML, so callers cannot tell
those apart. -/
theorem C10_nullSentinel (status : Nat) (body : TIBody) (h : status ≠ 200) :
    (get_transport_info (NetOutcome.resp status body)).1 = Except.ok none ∧
    (get_transport_info NetOutcome.timeout).1 = Except.ok none ∧
    (get_transport_info (NetOutcome.resp 200 TIBody.malformed)).1 =
      Except.ok none := by
  refine ⟨?_, rfl, rfl⟩
  simp [get_transport_info, h]

/-- C10 witness: the statement at status 503. -/
theorem C10_witness :
    (get_transport_info (NetOutcome.resp 503 TIBody.malformed)).1 =
      Except.ok none :=
  (C10_nullSentinel 503 TIBody.malformed (by decide)).1

/-! C4. -/

/-- C4: a `play` / `stop` / `pause` call returning status 200 sets the local
state to `PLAYING` / `IDLE` / `PAUSE` respectively; any call that does not
return status 200 (a non-200 response, a 408 timeout, or a propagated
exception) leaves the local state exactly as it was before the call. -/
theorem C4_stateMachine (st : TransportState) (o : NetOutcome Unit) :
    ((play st o).2.1 = Except.ok 200 →
      (play st o).1 = TransportState.PLAYING) ∧
    ((stop st o).2.1 = Except.ok 200 → (stop st o).1 = TransportState.IDLE) ∧
    ((pause st o).2.1 = Except.ok 200 →
      (pause st o).1 = TransportState.PAUSE) ∧
    ((play st o).2.1 ≠ Except.ok 200 → (play st o).1 = st) ∧
    ((stop st o).2.1 ≠ Except.ok 200 → (stop st o).1 = st) ∧
    ((pause st o).2.1 ≠ Except.ok 200 → (pause st o).1 = st) := by
  rcases o with ⟨status, u⟩ | _ | _
  · by_cases h200 : status = 200 <;>
      simp [play, stop, pause, h200]
  · simp [play, stop, pause]
  · simp [play, stop, pause]

/-- C4 witness: a 200 play response from the `IDLE` state. -/
theorem C4_witness :
    (play TransportState.IDLE (NetOutcome.resp 200 ())).1 =
      TransportState.PLAYING :=
  (C4_stateMachine TransportState.IDLE (NetOutcome.resp 200 ())).1 rfl

/-! C7. -/

theorem forall_kind_iff (p : ServiceKind → Prop) :
    (∀ k, p k) ↔
      p ServiceKind.transport ∧ p ServiceKind.connection ∧
        p ServiceKind.rendering := by
  constructor
  · exact fun h => ⟨h _, h _, h _⟩
  · rintro ⟨h1, h2, h3⟩ k
    cases k <;> assumption

theorem resolveStep_get (acc : ResolvedServices) (s : ServiceDesc)
    (k : ServiceKind) :
    (resolveStep acc s).get k =
      if UpnpService.kindOf s.service_type = some k then some s
      else acc.get k := by
  cases h : UpnpService.kindOf s.service_type with
  | none => simp [resolveStep, h]
  | some k0 =>
    cases k0 <;> cases k <;>
      simp [resolveStep, h, ResolvedServices.get]

theorem foldl_resolveStep_get (services : List ServiceDesc)
    (acc : ResolvedServices) (k : ServiceKind) :
    (((services.foldl resolveStep acc).get k).isSome : Prop) ↔
      ((acc.get k).isSome ∨
        ∃ s ∈ services, UpnpService.kindOf s.service_type = some k) := by
  induction services generalizing acc with
  | nil => simp
  | cons s rest ih =>
    rw [List.foldl_cons, ih, resolveStep_get]
    by_cases h : UpnpService.kindOf s.service_type = some k
    · simp [h]
    · simp [h]

theorem resolveServices_get_isSome (services : List ServiceDesc)
    (k : ServiceKind) :
    ((((resolveServices services).get k).isSome : Bool) = true) ↔
      ∃ s ∈ services, UpnpService.kindOf s.service_type = some k := by
  rw [resolveServices, foldl_resolveStep_get]
  cases k <;> simp [ResolvedServices.get]

theorem validate_true_iff (r : ResolvedServices) :
    (validate r).1 = true ↔ ∀ k, ((r.get k).isSome : Bool) = true := by
  rw [forall_kind_iff]
  obtain ⟨t, c, rd⟩ := r
  cases t <;> cases c <;> cases rd <;>
    simp [validate, ResolvedServices.get]

theorem validate_log_missing (r : ResolvedServices) (k : ServiceKind)
    (h : (validate r).2 = some k) :
    (validate r).1 = false ∧ r.get k = none := by
  obtain ⟨t, c, rd⟩ := r
  cases t <;> cases c <;> cases rd <;> cases k <;>
    simp_all [validate, ResolvedServices.get]

theorem validate_false_logs (r : ResolvedServices)
    (h : (validate r).1 = false) : ((validate r).2).isSome := by
  obtain ⟨t, c, rd⟩ := r
  cases t <;> cases c <;> cases rd <;> simp_all [validate]

/-- C7: `validate` on the services resolved by the constructor returns
`True` exactly when every one of the three required service kinds occurs in
the device's service list; when it fails, the kind named in the rejection
log is one that is absent from the list, and a failure always names such a
kind. -/
theorem C7_validate (services : List ServiceDesc) :
    ((validate (resolveServices services)).1 = true ↔
      ∀ k, ∃ s ∈ services, UpnpService.kindOf s.service_type = some k) ∧
    (∀ k, (validate (resolveServices services)).2 = some k →
      (validate (resolveServices services)).1 = false ∧
        ¬∃ s ∈ services, UpnpService.kindOf s.service_type = some k) ∧
    ((validate (resolveServices services)).1 = false →
      ((validate (resolveServices services)).2).isSome) := by
  refine ⟨?_, ?_, validate_false_logs _⟩
  · rw [validate_true_iff]
    exact forall_congr' fun k => resolveServices_get_isSome services k
  · intro k hk
    obtain ⟨hfalse, hnone⟩ := validate_log_missing _ k hk
    refine ⟨hfalse, fun hex => ?_⟩
    rw [← resolveServices_get_isSome] at hex
    rw [hnone] at hex
    exact Bool.false_ne_true hex

/-- C7 witness: a device listing all three required service kinds passes
validation. -/
theorem C7_witness :
    (validate (resolveServices threeServices)).1 = true :=
  (C7_validate threeServices).1.mpr (by
    intro k
    cases k with
    | transport =>
      exact ⟨⟨"urn:schemas-upnp-org:service:AVTransport:1", "/t", "/te"⟩,
        by simp [threeServices], by decide⟩
    | connection =>
      exact ⟨⟨"urn:schemas-upnp-org:service:ConnectionManager:1", "/c", "/ce"⟩,
        by simp [threeServices], by decide⟩
    | rendering =>
      exact ⟨⟨"urn:schemas-upnp-org:service:RenderingControl:1", "/r", "/re"⟩,
        by simp [threeServices], by decide⟩)

/-! C9. -/

theorem mem_add_mime_type (mimes : List String) (x m : String) :
    m ∈ add_mime_type mimes x ↔ m ∈ mimes ∨ m = x := by
  by_cases h : x ∈ mimes
  · rw [add_mime_type, if_pos h]
    constructor
    · exact Or.inl
    · rintro (hm | rfl)
      · exact hm
      · exact h
  · rw [add_mime_type, if_neg h]
    simp

theorem sinkEntryMime_eq_some (entry m : String) :
    sinkEntryMime entry = some m ↔
      4 ≤ (pySplit ':' (pyStrip entry)).length ∧
        (pySplit ':' (pyStrip entry)).getD 2 "" = m := by
  simp only [sinkEntryMime]
  split <;> simp_all

theorem mem_parseSink_foldl (entries : List String) (mimes : List String)
    (m : String) :
    m ∈ entries.foldl
        (fun acc sink =>
          match sinkEntryMime sink with
          | some x => add_mime_type acc x
          | none => acc)
        mimes ↔
      m ∈ mimes ∨ ∃ e ∈ entries, sinkEntryMime e = some m := by
  induction entries generalizing mimes with
  | nil => simp
  | cons e rest ih =>
    rw [List.foldl_cons]
    cases he : sinkEntryMime e with
    | none =>
      rw [ih]
      simp [he]
    | some x =>
      rw [ih, mem_add_mime_type]
      simp only [List.mem_cons, he]
      constructor
      · rintro ((hm | rfl) | hrest)
        · exact Or.inl hm
        · exact Or.inr ⟨e, Or.inl rfl, he⟩
        · obtain ⟨e1, he1, hx⟩ := hrest
          exact Or.inr ⟨e1, Or.inr he1, hx⟩
      · rintro (hm | ⟨e1, (rfl | he1), hx⟩)
        · exact Or.inl (Or.inl hm)
        · rw [he] at hx
          exact Or.inl (Or.inr (Option.some_injective _ hx).symm)
        · exact Or.inr ⟨e1, he1, hx⟩

/-- C9: a mime type is produced by the Sink loop exactly when it is the
index-2 field of some comma-separated Sink entry having at least 4
colon-delimited fields (entries with fewer fields are silently skipped);
the example string two entries yield exactly `audio/mpeg` and `audio/wav`,
and the short entry `"http-get:*"` contributes nothing. -/
theorem C9_sinkParsing :
    (∀ (s : String) (mimes : List String) (m : String),
      m ∈ parseSinkMimes s mimes ↔
        m ∈ mimes ∨ ∃ entry ∈ pySplit ',' s,
          4 ≤ (pySplit ':' (pyStrip entry)).length ∧
            (pySplit ':' (pyStrip entry)).getD 2 "" = m) ∧
    parseSinkMimes "http-get:*:audio/mpeg:*,http-get:*:audio/wav:*" [] =
      ["audio/mpeg", "audio/wav"] ∧
    sinkEntryMime "http-get:*" = none := by
  refine ⟨?_, by decide, by decide⟩
  intro s mimes m
  rw [parseSinkMimes, mem_parseSink_foldl]
  exact or_congr_right
    (exists_congr fun entry =>
      and_congr_right fun _ => sinkEntryMime_eq_some entry m)

/-! C5. -/

theorem updateLoop_cons_unrecognized (st : TransportState)
    (o : NetOutcome TIBody) (rest : List (NetOutcome TIBody))
    (h : unrecognizedPoll o) :
    updateLoop st (o :: rest) = updateLoop st rest := by
  obtain ⟨s, hs, hp, hq⟩ := h
  simp [updateLoop, hs, hp, hq]

theorem updateLoop_append_unrecognized (st : TransportState)
    (l1 l2 : List (NetOutcome TIBody)) (h : ∀ o ∈ l1, unrecognizedPoll o) :
    updateLoop st (l1 ++ l2) = updateLoop st l2 := by
  induction l1 with
  | nil => rfl
  | cons o rest ih =>
    rw [List.cons_append,
      updateLoop_cons_unrecognized st o _ (h o (List.mem_cons_self o rest))]
    exact ih fun o1 ho1 => h o1 (List.mem_cons_of_mem o ho1)

theorem updateLoop_all_unrecognized (st : TransportState)
    (l : List (NetOutcome TIBody)) (h : ∀ o ∈ l, unrecognizedPoll o) :
    updateLoop st l = Except.ok (false, st) := by
  have h2 := updateLoop_append_unrecognized st l [] h
  rw [List.append_nil] at h2
  rw [h2]
  rfl

theorem rangeMap_split (timeout j : Nat) (polls : Nat → NetOutcome TIBody)
    (hj : j ≤ timeout) :
    (List.range (timeout + 1)).map polls =
      (List.range j).map polls ++ polls j ::
        ((List.range (timeout - j)).map fun k => polls (j + (k + 1))) := by
  have h1 : timeout + 1 = j + (timeout - j + 1) := by omega
  rw [h1, List.range_add, List.map_append, List.map_map]
  congr 1
  rw [List.range_succ_eq_map, List.map_cons, List.map_map]
  rfl

/-- C5: `_update_current_state` polls once per elapsed second within the
deadline; if polls before instant `j` are all unrecognized text, then a
`"PLAYING"` (resp. `"STOPPED"`) poll at instant `j ≤ timeout` makes the call
return `True` with the state set to `PLAYING` (resp. `STOP`), and a `None`
poll at instant `j` aborts at once with `False` and the state unchanged;
when every poll within the deadline is unrecognized text the loop ends at
the deadline with `False` and the state unchanged. -/
theorem C5_updateCurrentState (timeout j : Nat)
    (polls : Nat → NetOutcome TIBody) (st : TransportState)
    (hj : j ≤ timeout) (hpre : ∀ k < j, unrecognizedPoll (polls k)) :
    ((get_transport_info (polls j)).1 = Except.ok (some "PLAYING") →
      update_current_state timeout polls st =
        Except.ok (true, TransportState.PLAYING)) ∧
    ((get_transport_info (polls j)).1 = Except.ok (some "STOPPED") →
      update_current_state timeout polls st =
        Except.ok (true, TransportState.STOP)) ∧
    ((get_transport_info (polls j)).1 = Except.ok none →
      update_current_state timeout polls st = Except.ok (false, st)) ∧
    ((∀ k ≤ timeout, unrecognizedPoll (polls k)) →
      update_current_state timeout polls st = Except.ok (false, st)) := by
  have hpre1 : ∀ o ∈ (List.range j).map polls, unrecognizedPoll o := by
    intro o ho
    obtain ⟨k, hk, rfl⟩ := List.mem_map.mp ho
    exact hpre k (List.mem_range.mp hk)
  have hsplit := rangeMap_split timeout j polls hj
  refine ⟨?_, ?_, ?_, ?_⟩
  · intro hp
    rw [update_current_state, hsplit,
      updateLoop_append_unrecognized st _ _ hpre1]
    simp only [updateLoop]
    rw [hp]
    rfl
  · intro hp
    rw [update_current_state, hsplit,
      updateLoop_append_unrecognized st _ _ hpre1]
    simp only [updateLoop]
    rw [hp]
    rfl
  · intro hp
    rw [update_current_state, hsplit,
      updateLoop_append_unrecognized st _ _ hpre1]
    simp only [updateLoop]
    rw [hp]
  · intro hall
    rw [update_current_state]
    apply updateLoop_all_unrecognized
    intro o ho
    obtain ⟨k, hk, rfl⟩ := List.mem_map.mp ho
    exact hall k (by have := List.mem_range.mp hk; omega)

/-- C5 witness: deadline 2, one `"TRANSITIONING"` poll, then `"PLAYING"` at
instant 1. -/
theorem C5_witness :
    update_current_state 2 pollsDemo TransportState.IDLE =
      Except.ok (true, TransportState.PLAYING) :=
  (C5_updateCurrentState 2 1 pollsDemo TransportState.IDLE (by decide)
    (fun k hk => by
      interval_cases k
      exact ⟨"TRANSITIONING", rfl, by decide, by decide⟩)).1 rfl

/-! C3. -/

/-- C3: in the orchestrated play, a registration returning a status other
than 200 short-circuits — the low-level play is never invoked and that
status is returned; after a 200 registration, a reconciliation ending in
`STOP` leads to exactly one low-level play invocation, a reconciliation
ending in `PLAYING` leads to none (200 is returned), and a failed
reconciliation leads to exactly one invocation as a fallback. -/
theorem C3_orchestratedPlay (st : TransportState) (env : CoinedEnv)
    (hs : env.get_stream = Except.ok ()) :
    (∀ rc, (register env.regOutcome).1 = Except.ok rc → rc ≠ 200 →
      coined_play st env = (some rc, st, 0)) ∧
    ((register env.regOutcome).1 = Except.ok 200 →
      (∀ st1, update_current_state env.timeout env.polls st =
          Except.ok (true, st1) →
        (st1 = TransportState.STOP → (coined_play st env).2.2 = 1) ∧
        (st1 = TransportState.PLAYING →
          coined_play st env = (some 200, st1, 0))) ∧
      (∀ st1, update_current_state env.timeout env.polls st =
          Except.ok (false, st1) → (coined_play st env).2.2 = 1)) := by
  have hcp : coined_play st env =
      match (register env.regOutcome).1 with
      | Except.error e => (some (exnCode e), st, 0)
      | Except.ok rc =>
        if rc = 200 then
          match update_current_state env.timeout env.polls st with
          | Except.error e => (some (exnCode e), st, 0)
          | Except.ok (true, st1) =>
            if st1 = TransportState.STOP then
              match play st1 env.playOutcome with
              | (st2, Except.ok code, _) => (some code, st2, 1)
              | (st2, Except.error e, _) => (some (exnCode e), st2, 1)
            else if st1 = TransportState.PLAYING then (some rc, st1, 0)
            else (none, st1, 0)
          | Except.ok (false, st1) =>
            match play st1 env.playOutcome with
            | (st2, Except.ok code, _) => (some code, st2, 1)
            | (st2, Except.error e, _) => (some (exnCode e), st2, 1)
        else (some rc, st, 0) := by
    unfold coined_play
    rw [hs]
  refine ⟨?_, ?_⟩
  · intro rc hreg hne
    rw [hcp, hreg]
    simp [hne]
  · intro hreg
    constructor
    · intro st1 hupd
      constructor
      · intro hstop
        rw [hcp, hreg]
        simp only [if_pos rfl, hupd, hstop]
        rcases h : play TransportState.STOP env.playOutcome with
          ⟨st2, r, logs⟩
        cases r <;> simp [h]
      · intro hplaying
        rw [hcp, hreg]
        simp [hupd, hplaying]
    · intro st1 hupd
      rw [hcp, hreg]
      simp only [if_pos rfl, hupd]
      rcases h : play st1 env.playOutcome with ⟨st2, r, logs⟩
      cases r <;> simp [h]

/-- C3 witness: a 200 registration followed by a `"STOPPED"` reconciliation
issues exactly one low-level play. -/
theorem C3_witness :
    (coined_play TransportState.IDLE envStopped).2.2 = 1 :=
  (((C3_orchestratedPlay TransportState.IDLE envStopped rfl).2 rfl).1
    TransportState.STOP rfl).1 rfl

/-! C6. -/

theorem update_current_state_connError (timeout j : Nat)
    (polls : Nat → NetOutcome TIBody) (st : TransportState)
    (hj : j ≤ timeout) (hpre : ∀ k < j, unrecognizedPoll (polls k))
    (hcj : polls j = NetOutcome.connError) :
    update_current_state timeout polls st =
      Except.error Exn.connectionError := by
  have hpre1 : ∀ o ∈ (List.range j).map polls, unrecognizedPoll o := by
    intro o ho
    obtain ⟨k, hk, rfl⟩ := List.mem_map.mp ho
    exact hpre k (List.mem_range.mp hk)
  rw [update_current_state, rangeMap_split timeout j polls hj,
    updateLoop_append_unrecognized st _ _ hpre1, hcj]
  rfl

theorem coined_play_unfold (st : TransportState) (env : CoinedEnv)
    (hs : env.get_stream = Except.ok ())
    (hreg : (register env.regOutcome).1 = Except.ok 200) :
    coined_play st env =
      match update_current_state env.timeout env.polls st with
      | Except.error e => (some (exnCode e), st, 0)
      | Except.ok (true, st1) =>
        if st1 = TransportState.STOP then
          match play st1 env.playOutcome with
          | (st2, Except.ok code, _) => (some code, st2, 1)
          | (st2, Except.error e, _) => (some (exnCode e), st2, 1)
        else if st1 = TransportState.PLAYING then (some 200, st1, 0)
        else (none, st1, 0)
      | Except.ok (false, st1) =>
        match play st1 env.playOutcome with
        | (st2, Except.ok code, _) => (some code, st2, 1)
        | (st2, Except.error e, _) => (some (exnCode e), st2, 1) := by
  unfold coined_play
  rw [hs, hreg]
  rfl

/-- C6 (counterexample): a timeout on the GetTransportInfo action yields the
`None` sentinel, not the 408 sentinel the claim states for every action
(it does log exactly one error entry referencing the control URL). -/
theorem C6_counterexample :
    get_transport_info NetOutcome.timeout =
      (Except.ok none, [errorUrlEntry, debugEntry]) := by
  rfl

/-- C6 (amended): a timeout on `register`, `play`, `stop`, `pause` or
`get_protocol_info` yields 408 with exactly one error log entry referencing
the target control URL; a timeout on `get_transport_info` yields the `None`
sentinel, also with exactly one such log entry; a connection-refused error
raised anywhere during the high-level play sequence — at the register POST
(`env1`), at a reconciliation poll after a 200 registration (`env3`), or at
the low-level play POST after the reconciled state came back `STOP` or
after reconciliation failed (`env4`) — yields 404; a `NoSuitableEncoder`
condition during that sequence yields 500. -/
theorem C6_amended (st : TransportState) (env1 env2 env3 env4 : CoinedEnv)
    (h1 : env1.get_stream = Except.ok ())
    (h2 : env1.regOutcome = NetOutcome.connError)
    (h3 : env2.get_stream = Except.error Exn.noSuitableEncoder)
    (h4 : env3.get_stream = Except.ok ())
    (h5 : env3.regOutcome = NetOutcome.resp 200 ())
    (h6 : env4.get_stream = Except.ok ())
    (h7 : env4.regOutcome = NetOutcome.resp 200 ())
    (h8 : env4.playOutcome = NetOutcome.connError) :
    ((register NetOutcome.timeout).1 = Except.ok 408 ∧
      errorUrlCount (register NetOutcome.timeout).2 = 1) ∧
    ((play st NetOutcome.timeout).2.1 = Except.ok 408 ∧
      errorUrlCount (play st NetOutcome.timeout).2.2 = 1) ∧
    ((stop st NetOutcome.timeout).2.1 = Except.ok 408 ∧
      errorUrlCount (stop st NetOutcome.timeout).2.2 = 1) ∧
    ((pause st NetOutcome.timeout).2.1 = Except.ok 408 ∧
      errorUrlCount (pause st NetOutcome.timeout).2.2 = 1) ∧
    ((get_protocol_info [] NetOutcome.timeout).1 = Except.ok (some 408) ∧
      errorUrlCount (get_protocol_info [] NetOutcome.timeout).2.2 = 1) ∧
    ((get_transport_info NetOutcome.timeout).1 = Except.ok none ∧
      errorUrlCount (get_transport_info NetOutcome.timeout).2 = 1) ∧
    (coined_play st env1).1 = some 404 ∧
    (coined_play st env2).1 = some 500 ∧
    (∀ j ≤ env3.timeout, (∀ k < j, unrecognizedPoll (env3.polls k)) →
      env3.polls j = NetOutcome.connError →
      (coined_play st env3).1 = some 404) ∧
    (∀ st1, update_current_state env4.timeout env4.polls st =
        Except.ok (true, st1) → st1 = TransportState.STOP →
      (coined_play st env4).1 = some 404) ∧
    (∀ st1, update_current_state env4.timeout env4.polls st =
        Except.ok (false, st1) →
      (coined_play st env4).1 = some 404) := by
  refine ⟨⟨rfl, rfl⟩, ⟨rfl, rfl⟩, ⟨rfl, rfl⟩, ⟨rfl, rfl⟩, ⟨rfl, rfl⟩,
    ⟨rfl, rfl⟩, ?_, ?_, ?_, ?_, ?_⟩
  · unfold coined_play
    rw [h1, h2]
    rfl
  · unfold coined_play
    rw [h3]
    rfl
  · intro j hj hpre hcj
    rw [coined_play_unfold st env3 h4 (by rw [h5]; rfl),
      update_current_state_connError env3.timeout j env3.polls st hj hpre hcj]
    rfl
  · intro st1 hupd hstop
    subst hstop
    rw [coined_play_unfold st env4 h6 (by rw [h7]; rfl), hupd, h8]
    rfl
  · intro st1 hupd
    rw [coined_play_unfold st env4 h6 (by rw [h7]; rfl), hupd, h8]
    rfl

/-- C6 witness: the amended statement on the concrete environments,
covering the connection-refused error at the register POST, at the second
reconciliation poll, and at the low-level play POST. -/
theorem C6_witness :
    (coined_play TransportState.IDLE envConnRefused).1 = some 404 ∧
    (coined_play TransportState.IDLE envNoEncoder).1 = some 500 ∧
    (coined_play TransportState.IDLE envPollConnRefused).1 = some 404 ∧
    (coined_play TransportState.IDLE envPlayConnRefused).1 = some 404 := by
  have h := C6_amended TransportState.IDLE envConnRefused envNoEncoder
    envPollConnRefused envPlayConnRefused rfl rfl rfl rfl rfl rfl rfl rfl
  refine ⟨h.2.2.2.2.2.2.1, h.2.2.2.2.2.2.2.1, ?_, ?_⟩
  · exact h.2.2.2.2.2.2.2.2.1 1 (by decide)
      (fun k hk => by
        interval_cases k
        exact ⟨"TRANSITIONING", rfl, by decide, by decide⟩) rfl
  · exact h.2.2.2.2.2.2.2.2.2.1 TransportState.STOP rfl rfl

end PulseaudioDlna
